import Mathlib

/-!
Shallow embedding of `statusline.py`: a statusline renderer that reads a JSON
snapshot on stdin, resolves session/weekly usage quotas through an mtime-based
file cache with per-key TTLs (falling back to a credential lookup plus one
network fetch), and prints one ANSI-colored line.

Modelling conventions:
* JSON values are the inductive `JVal`; Python dicts are association lists
  (objects produced by `json.loads` are assumed duplicate-key free).
* Python exceptions that the source does not catch are `Except` errors; the
  distinct exception classes the source catches or raises are `PyExc`.
* `time.time()`, file mtimes and `datetime` instants are rationals (seconds).
  JSON numbers are rationals as well; the numeric-string coercion `float(s)`
  of Python and the decimal rendering of non-integral floats are not needed
  by any theorem below and are modelled coarsely (see `pyFloat`, `ratToStr`).
* The macOS Keychain lookup (`get_claude_token`) and the `curl` fetch
  (`fetch_usage`) are external effects; they are modelled as oracle fields of
  `Env` (`token`, `fetched`), exactly as the source consumes their results.
* The filesystem seen by the script is the pair of cache files (`FS`); a file
  is `CacheFile` = mtime plus parsed content (`none` = unparseable JSON).
  Cache writes (`save_cache`) always succeed in the model; write failures are
  silently swallowed by the source and no claim concerns them.
-/

/-- JSON value as produced by `json.loads`. -/
inductive JVal where
  | null
  | bool (b : Bool)
  | num (q : ℚ)
  | str (s : String)
  | arr (xs : List JVal)
  | obj (kvs : List (String × JVal))

/-- Python exception classes relevant to the source. -/
inductive PyExc where
  | attributeError
  | typeError
  | valueError
deriving DecidableEq

/-- Python truthiness of a JSON value (`if x:`). -/
def JVal.truthy : JVal → Bool
  | .null => false
  | .bool b => b
  | .num q => q != 0
  | .str s => s != ""
  | .arr xs => !xs.isEmpty
  | .obj kvs => !kvs.isEmpty

/-- Dictionary lookup with default, `d.get(k, default)` on a known dict. -/
def lookupD (kvs : List (String × JVal)) (k : String) (d : JVal) : JVal :=
  (kvs.lookup k).getD d

/-- Python attribute call `v.get(k, default)`: raises `AttributeError` unless
`v` is a dict. -/
def pyGetD (v : JVal) (k : String) (d : JVal) : Except PyExc JVal :=
  match v with
  | .obj kvs => .ok (lookupD kvs k d)
  | _ => .error .attributeError

/-- Python `float(v)` on a JSON value. Numeric strings (which CPython would
parse) are modelled as `ValueError` like other strings; no claim feeds a
string-typed utilization to the code. -/
def pyFloat : JVal → Except PyExc ℚ
  | .num q => .ok q
  | .bool b => .ok (if b then 1 else 0)
  | .str _ => .error .valueError
  | _ => .error .typeError

/-- Numeric value of a JSON value for arithmetic and comparisons; non-numbers
raise `TypeError` as the corresponding Python arithmetic would. -/
def pyToNum : JVal → Except PyExc ℚ
  | .num q => .ok q
  | .bool b => .ok (if b then 1 else 0)
  | _ => .error .typeError

/-- Floor of a rational as an integer, computably (`Rat.floor_def` shows this
is the mathematical floor). Python float floor division `a // b` is
`ratFloor (a / b)`. -/
def ratFloor (q : ℚ) : ℤ :=
  q.num / (q.den : ℤ)

/-- Python `int(x)` on a real value: truncation toward zero. -/
def pyTrunc (q : ℚ) : ℤ :=
  q.num.tdiv (q.den : ℤ)

/-- Python `str()` of a JSON number (integers render as in Python; the decimal
rendering of non-integral floats is not exercised by any claim and is
approximated). -/
def ratToStr (q : ℚ) : String :=
  if q.den = 1 then toString q.num else toString q.num ++ "/" ++ toString q.den

/-- Python `str(v)` of a JSON value; container rendering is not exercised by
any claim and is approximated. -/
def pyStr : JVal → String
  | .null => "None"
  | .bool b => if b then "True" else "False"
  | .num q => ratToStr q
  | .str s => s
  | .arr _ => "[...]"
  | .obj _ => "\x7b...\x7d"

/-- Python `s.lower()` via attribute access: raises `AttributeError` on
non-strings. -/
def pyLower : JVal → Except PyExc String
  | .str s => .ok s.toLower
  | _ => .error .attributeError

/-- Python `"{m:02d}"` for the minute field (always in `[0,60)` here). -/
def pyFmt02 (m : ℤ) : String :=
  if 0 ≤ m ∧ m < 10 then "0" ++ toString m else toString m

/-- Hexadecimal digit value. -/
def hexDigit (c : Char) : ℕ :=
  if '0' ≤ c ∧ c ≤ '9' then c.toNat - '0'.toNat
  else if 'a' ≤ c ∧ c ≤ 'f' then c.toNat - 'a'.toNat + 10
  else if 'A' ≤ c ∧ c ≤ 'F' then c.toNat - 'A'.toNat + 10
  else 0

/-- Python `int(s, 16)` on a hex-digit string. -/
def parseHexNat (cs : List Char) : ℕ :=
  cs.foldl (fun a c => 16 * a + hexDigit c) 0

/-- Source `hex_to_ansi` (lines 18-22): convert hex color to an ANSI truecolor
escape sequence. -/
def hex_to_ansi (hex_color : String) : String :=
  let cs := hex_color.toList.dropWhile (· == '#')
  let r := parseHexNat (cs.take 2)
  let g := parseHexNat ((cs.drop 2).take 2)
  let b := parseHexNat ((cs.drop 4).take 2)
  "\x1b[38;2;" ++ toString r ++ ";" ++ toString g ++ ";" ++ toString b ++ "m"

def C_RED : String := hex_to_ansi "#f38ba8"
def C_YELLOW : String := hex_to_ansi "#f9e2af"
def C_GREEN : String := hex_to_ansi "#a6e3a1"
def C_GRAY : String := hex_to_ansi "#585b70"
def C_TEXT : String := hex_to_ansi "#cdd6f4"
def C_RESET : String := "\x1b[0m"

/-- Containment of `n` as a contiguous run at the head of `h`. -/
def charsStartWith : List Char → List Char → Bool
  | [], _ => true
  | _ :: _, [] => false
  | a :: as, b :: bs => a == b && charsStartWith as bs

/-- Containment of `n` as a contiguous run anywhere in the second list:
Python `n in h` on strings. -/
def charsHasSub (n : List Char) : List Char → Bool
  | [] => charsStartWith n []
  | b :: bs => charsStartWith n (b :: bs) || charsHasSub n bs

/-- Python `needle in hay` for strings. -/
def strHasSub (hay needle : String) : Bool :=
  charsHasSub needle.toList hay.toList

/-- Source `get_model_color` (lines 40-49); `model.lower()` raises
`AttributeError` on non-strings. -/
def get_model_color (model : JVal) : Except PyExc String :=
  match pyLower model with
  | .error e => .error e
  | .ok model_lower =>
    if strHasSub model_lower "opus" then .ok C_GREEN
    else if strHasSub model_lower "sonnet" then .ok C_YELLOW
    else if strHasSub model_lower "haiku" then .ok C_RED
    else .ok C_TEXT

/-- Source `get_pct_color` (lines 52-58). -/
def get_pct_color (pct : ℚ) : String :=
  if pct > 80 then C_RED
  else if pct > 60 then C_YELLOW
  else C_GREEN

/-- Source `build_progress_bar` (lines 81-89). -/
def build_progress_bar (pct : ℚ) (width : ℤ) : String × String :=
  let color := get_pct_color pct
  let filled := min (max (ratFloor (pct * (width : ℚ) / 100)) 0) width
  let empty := max (width - filled) 0
  let bar_filled := String.mk (List.replicate filled.toNat '▓')
  let bar_empty := String.mk (List.replicate empty.toNat '░')
  (color ++ bar_filled ++ C_GRAY ++ bar_empty ++ C_RESET, color)

/-- Source `format_time_until_reset` (lines 61-78). The stdlib call
`datetime.fromisoformat` and the subtraction against `datetime.now` are
modelled by an oracle `parseIso` giving the instant in epoch seconds
(`none` = `ValueError`, which the source catches) and the current instant
`now`; `delta.total_seconds()` is then `t - now`. A truthy non-string
`resets_at` raises `AttributeError` at `.replace`, which the source does not
catch. -/
def format_time_until_reset (parseIso : String → Option ℚ) (now : ℚ)
    (resets_at : JVal) : Except PyExc (Option String) :=
  if !resets_at.truthy then .ok none
  else
    match resets_at with
    | .str s =>
      match parseIso (s.replace "Z" "+00:00") with
      | none => .ok none
      | some t =>
        let delta := t - now
        if delta ≤ 0 then .ok none
        else
          let total_minutes : ℤ := ratFloor (delta / 60)
          let hours := Int.fdiv total_minutes 60
          let minutes := Int.fmod total_minutes 60
          if hours > 0 then .ok (some (toString hours ++ "h" ++ pyFmt02 minutes ++ "m"))
          else .ok (some (toString minutes ++ "m"))
    | _ => .error .attributeError

/-- Cache file on disk: modification time plus parsed JSON content
(`content = none` models a file that is not valid JSON). -/
structure CacheFile where
  mtime : ℚ
  content : Option JVal

/-- Filesystem state: the two cache files (absent = file does not exist). -/
structure FS where
  session : Option CacheFile
  weekly : Option CacheFile

def SESSION_TTL : ℚ := 60
def WEEKLY_TTL : ℚ := 300

/-- Source `get_cached_usage` (lines 143-154): returns the parsed cache
content only if the file exists, `now - mtime <= ttl`, and it parses. -/
def get_cached_usage (now : ℚ) (cache_file : Option CacheFile) (ttl : ℚ) :
    Option JVal :=
  match cache_file with
  | none => none
  | some cf => if now - cf.mtime > ttl then none else cf.content

/-- Source `save_cache` (lines 157-164): the written file carries the current
time as mtime; write failures are swallowed (not modelled, see header). -/
def save_cache (now : ℚ) (data : JVal) : Option CacheFile :=
  some ⟨now, some data⟩

/-- Ambient effects of one invocation: the clock, the Keychain token oracle
(result of `get_claude_token`, lines 92-114) and the fetch oracle (result of
`fetch_usage` when invoked, lines 117-140; `none` = any transport/parse
failure). -/
structure Env where
  now : ℚ
  token : Option String
  fetched : Option JVal

/-- Python falsiness of the token (`if not token:` also rejects `""`). -/
def tokenFalsy : Option String → Bool
  | none => true
  | some s => s == ""

/-- Result of `get_usage_data` plus the filesystem after it and how many
times each external collaborator was invoked. -/
structure ResolveOut where
  session_data : Option JVal
  weekly_data : Option JVal
  fs : FS
  tokenCalls : ℕ
  fetchCalls : ℕ

/-- Construction of one cached reading from a truthy sub-record
(source lines 189-192 and 197-200):
`{"pct": int(float(sub.get("utilization", 0))), "resets_at": sub.get("resets_at")}`. -/
def processSubrecord (sub : JVal) : Except PyExc JVal :=
  match pyGetD sub "utilization" (.num 0) with
  | .error e => .error e
  | .ok u =>
    match pyFloat u with
    | .error e => .error e
    | .ok q =>
      match pyGetD sub "resets_at" .null with
      | .error e => .error e
      | .ok r => .ok (.obj [("pct", .num ((pyTrunc q : ℤ) : ℚ)), ("resets_at", r)])

/-- Source `get_usage_data` (lines 167-203). Errors carry the filesystem at
raise time (a session write can precede a crash on `seven_day`). -/
def get_usage_data (env : Env) (fs : FS) : Except (PyExc × FS) ResolveOut :=
  let session0 := get_cached_usage env.now fs.session SESSION_TTL
  let weekly0 := get_cached_usage env.now fs.weekly WEEKLY_TTL
  if session0.isSome && weekly0.isSome then
    .ok ⟨session0, weekly0, fs, 0, 0⟩
  else if tokenFalsy env.token then
    .ok ⟨none, none, fs, 1, 0⟩
  else
    match env.fetched with
    | none => .ok ⟨none, none, fs, 1, 1⟩
    | some usage =>
      if !usage.truthy then .ok ⟨none, none, fs, 1, 1⟩
      else
        match pyGetD usage "five_hour" (.obj []) with
        | .error e => .error (e, fs)
        | .ok five_hour =>
          let step1 : Except (PyExc × FS) (Option JVal × FS) :=
            if five_hour.truthy then
              match processSubrecord five_hour with
              | .error e => .error (e, fs)
              | .ok d => .ok (some d, { fs with session := save_cache env.now d })
            else .ok (session0, fs)
          match step1 with
          | .error ef => .error ef
          | .ok (sd, fs1) =>
            match pyGetD usage "seven_day" (.obj []) with
            | .error e => .error (e, fs1)
            | .ok seven_day =>
              if seven_day.truthy then
                match processSubrecord seven_day with
                | .error e => .error (e, fs1)
                | .ok d =>
                  .ok ⟨sd, some d, { fs1 with weekly := save_cache env.now d }, 1, 1⟩
              else .ok ⟨sd, weekly0, fs1, 1, 1⟩

/-- Context-percentage computation of `main` (source lines 243-248):
`autocompact_threshold = size * 775 // 1000`;
`min(current * 100 // autocompact_threshold, 100)` when the threshold is
positive, else `0`. Values stay rational because Python floor division on
floats yields a float. -/
def context_percentage (size current : ℚ) : ℚ :=
  let autocompact_threshold : ℚ := (ratFloor (size * 775 / 1000) : ℤ)
  if autocompact_threshold > 0 then
    min ((ratFloor (current * 100 / autocompact_threshold) : ℤ) : ℚ) 100
  else 0

/-- Model/version/context segments of `main` (source lines 212-250). -/
def mainHeadParts (data : JVal) : Except PyExc (List String) :=
  match pyGetD data "model" (.obj []) with
  | .error e => .error e
  | .ok model_data =>
    let pr : JVal × JVal :=
      match model_data with
      | .obj kvs =>
        (lookupD kvs "id" (.str "unknown"), lookupD kvs "display_name" (.str "unknown"))
      | v => (.str (pyStr v), .str (pyStr v))
    match pyGetD data "version" (.str "0.0.0") with
    | .error e => .error e
    | .ok version =>
      match get_model_color pr.1 with
      | .error e => .error e
      | .ok model_color =>
        match pyLower pr.2 with
        | .error e => .error e
        | .ok model_short =>
          match pyGetD data "context_window" (.obj []) with
          | .error e => .error e
          | .ok cw =>
            match pyGetD cw "current_usage" .null with
            | .error e => .error e
            | .ok usage =>
              match pyGetD cw "context_window_size" (.num 200000) with
              | .error e => .error e
              | .ok size =>
                let currentE : Except PyExc ℚ :=
                  if usage.truthy then
                    match pyGetD usage "input_tokens" (.num 0) with
                    | .error e => .error e
                    | .ok a =>
                      match pyGetD usage "cache_creation_input_tokens" (.num 0) with
                      | .error e => .error e
                      | .ok b =>
                        match pyGetD usage "cache_read_input_tokens" (.num 0) with
                        | .error e => .error e
                        | .ok c =>
                          match pyToNum a, pyToNum b, pyToNum c with
                          | .ok qa, .ok qb, .ok qc => .ok (qa + qb + qc)
                          | .error e, _, _ => .error e
                          | _, .error e, _ => .error e
                          | _, _, .error e => .error e
                  else .ok 0
                match currentE with
                | .error e => .error e
                | .ok current =>
                  match pyToNum size with
                  | .error e => .error e
                  | .ok sizeQ =>
                    let context_pct := context_percentage sizeQ current
                    .ok [model_color ++ model_short ++ C_RESET,
                         C_TEXT ++ "v" ++ pyStr version ++ C_RESET,
                         C_TEXT ++ "context: " ++ get_pct_color context_pct
                           ++ ratToStr context_pct ++ "%" ++ C_RESET]

/-- Session segment of `main` (source lines 255-265). The cache value `pct` is
coerced through `pyToNum` because `get_pct_color`/`build_progress_bar` would
raise `TypeError` on a non-numeric value before anything is printed. -/
def sessionPart (parseIso : String → Option ℚ) (now : ℚ) (sd : JVal) :
    Except PyExc String :=
  match pyGetD sd "pct" (.num 0) with
  | .error e => .error e
  | .ok pctJ =>
    match pyToNum pctJ with
    | .error e => .error e
    | .ok pct =>
      let bar := (build_progress_bar pct 8).1
      let color := get_pct_color pct
      match pyGetD sd "resets_at" .null with
      | .error e => .error e
      | .ok rj =>
        match format_time_until_reset parseIso now rj with
        | .error e => .error e
        | .ok reset_str =>
          let reset_part :=
            match reset_str with
            | some s =>
              if s != "" then " " ++ C_TEXT ++ "reset: " ++ C_GREEN ++ s ++ C_RESET
              else ""
            | none => ""
          .ok (C_TEXT ++ "session: " ++ color ++ pyStr pctJ ++ "%" ++ C_RESET
               ++ " " ++ C_GRAY ++ "[" ++ C_RESET ++ bar ++ C_GRAY ++ "]" ++ C_RESET
               ++ reset_part)

/-- Weekly segment of `main` (source lines 267-273). -/
def weeklyPart (wd : JVal) : Except PyExc String :=
  match pyGetD wd "pct" (.num 0) with
  | .error e => .error e
  | .ok pctJ =>
    match pyToNum pctJ with
    | .error e => .error e
    | .ok pct =>
      let bar := (build_progress_bar pct 8).1
      let color := get_pct_color pct
      .ok (C_TEXT ++ "weekly: " ++ color ++ pyStr pctJ ++ "%" ++ C_RESET
           ++ " " ++ C_GRAY ++ "[" ++ C_RESET ++ bar ++ C_GRAY ++ "]" ++ C_RESET)

/-- Separator of the output line (source line 276). -/
def lineSeparator : String := " " ++ C_GRAY ++ "│" ++ C_RESET ++ " "

/-- Source `main` (lines 206-277). `stdin = none` models standard input that
`json.load` fails to parse (the caught `JSONDecodeError`); `stdin = some v`
models input parsing to the JSON value `v`. The result is the printed stdout
plus the final filesystem, or the uncaught exception with the filesystem at
raise time. -/
def pyMain (stdin : Option JVal) (parseIso : String → Option ℚ) (env : Env)
    (fs : FS) : Except (PyExc × FS) (String × FS) :=
  match stdin with
  | none => .ok ("", fs)
  | some data =>
    match mainHeadParts data with
    | .error e => .error (e, fs)
    | .ok parts0 =>
      match get_usage_data env fs with
      | .error ef => .error ef
      | .ok r =>
        let sp : Except PyExc (List String) :=
          match r.session_data with
          | none => .ok []
          | some sd =>
            match sessionPart parseIso env.now sd with
            | .error e => .error e
            | .ok p => .ok [p]
        match sp with
        | .error e => .error (e, r.fs)
        | .ok sparts =>
          let wp : Except PyExc (List String) :=
            match r.weekly_data with
            | none => .ok []
            | some wd =>
              match weeklyPart wd with
              | .error e => .error e
              | .ok p => .ok [p]
          match wp with
          | .error e => .error (e, r.fs)
          | .ok wparts =>
            .ok (String.intercalate lineSeparator (parts0 ++ sparts ++ wparts), r.fs)

/-- Observable outcome of one process invocation: stdout, exit status, final
filesystem. CPython exits with status 1 on an uncaught exception (the
traceback goes to stderr, stdout stays empty since the single `print` is the
last statement). -/
structure ProgOut where
  stdout : String
  exit : ℕ
  fs : FS

/-- Whole-process behavior: `python statusline.py` on one stdin document. -/
def runProgram (stdin : Option JVal) (parseIso : String → Option ℚ) (env : Env)
    (fs : FS) : ProgOut :=
  match pyMain stdin parseIso env fs with
  | .ok (out, fs2) => ⟨out, 0, fs2⟩
  | .error (_, fs2) => ⟨"", 1, fs2⟩

/-! ## Arithmetic bridge lemmas -/

theorem ratFloor_eq_floor (q : ℚ) : ratFloor q = ⌊q⌋ := by
  unfold ratFloor
  exact Rat.floor_def.symm

theorem pyTrunc_eq_floor_of_nonneg (q : ℚ) (h : 0 ≤ q) : pyTrunc q = ⌊q⌋ := by
  unfold pyTrunc
  rw [Rat.floor_def]
  exact Int.tdiv_eq_ediv (Rat.num_nonneg.mpr h) (Int.natCast_nonneg _)

theorem pyTrunc_eq_ceil_of_nonpos (q : ℚ) (h : q ≤ 0) : pyTrunc q = ⌈q⌉ := by
  have hneg : pyTrunc q = -pyTrunc (-q) := by
    unfold pyTrunc
    rw [Rat.neg_num, Rat.neg_den, Int.neg_tdiv, neg_neg]
  rw [hneg, pyTrunc_eq_floor_of_nonneg (-q) (neg_nonneg.mpr h), Int.floor_neg, neg_neg]

theorem pyTrunc_mem_Icc (q : ℚ) (h0 : 0 ≤ q) (h100 : q ≤ 100) :
    0 ≤ ((pyTrunc q : ℤ) : ℚ) ∧ ((pyTrunc q : ℤ) : ℚ) ≤ 100 := by
  rw [pyTrunc_eq_floor_of_nonneg q h0]
  constructor
  · exact_mod_cast Int.floor_nonneg.mpr h0
  · have : ⌊q⌋ ≤ ⌊(100 : ℚ)⌋ := Int.floor_le_floor h100
    have h100' : ⌊(100 : ℚ)⌋ = 100 := by
      norm_num
    rw [h100'] at this
    exact_mod_cast this

/-! ## Cache Store lemmas -/

theorem get_cached_usage_eq_some_iff (now : ℚ) (file : Option CacheFile)
    (ttl : ℚ) (d : JVal) :
    get_cached_usage now file ttl = some d ↔
      ∃ cf, file = some cf ∧ cf.content = some d ∧ now - cf.mtime ≤ ttl := by
  cases file with
  | none => simp [get_cached_usage]
  | some cf =>
    by_cases h : now - cf.mtime > ttl
    · simp only [get_cached_usage, if_pos h]
      constructor
      · intro hc
        exact absurd hc (by simp)
      · rintro ⟨cf', hcf', _, hle⟩
        cases hcf'
        exact absurd hle (not_le.mpr h)
    · simp only [get_cached_usage, if_neg h]
      constructor
      · intro hc
        exact ⟨cf, rfl, hc, not_lt.mp h⟩
      · rintro ⟨cf', hcf', hc, _⟩
        cases hcf'
        exact hc

theorem get_cached_usage_of_fresh (now : ℚ) (cf : CacheFile) (ttl : ℚ) (d : JVal)
    (hc : cf.content = some d) (hfresh : now - cf.mtime ≤ ttl) :
    get_cached_usage now (some cf) ttl = some d := by
  simp only [get_cached_usage, if_neg (not_lt.mpr hfresh)]
  exact hc

/-- C6: the cache read returns an entry iff the file exists, parses, and its
age `now - mtime` is at most the TTL; an entry written at `t0` with TTL `T` is
valid when read at `t0 + T - 1` and invalid at `t0 + T + 1`. -/
theorem C6_cache_ttl_validity :
    (∀ (now : ℚ) (file : Option CacheFile) (ttl : ℚ) (d : JVal),
        get_cached_usage now file ttl = some d ↔
          ∃ cf, file = some cf ∧ cf.content = some d ∧ now - cf.mtime ≤ ttl)
    ∧ (∀ (t0 T : ℚ) (d : JVal),
        get_cached_usage (t0 + T - 1) (some ⟨t0, some d⟩) T = some d)
    ∧ (∀ (t0 T : ℚ) (d : JVal),
        get_cached_usage (t0 + T + 1) (some ⟨t0, some d⟩) T = none) := by
  refine ⟨get_cached_usage_eq_some_iff, fun t0 T d => ?_, fun t0 T d => ?_⟩
  · exact get_cached_usage_of_fresh _ _ _ _ rfl (by linarith)
  · simp only [get_cached_usage, if_pos (show t0 + T + 1 - t0 > T by linarith)]

theorem ratFloor_intCast_div (a b : ℤ) (hb : 0 < b) :
    ratFloor ((a : ℚ) / (b : ℚ)) = a.fdiv b := by
  rw [ratFloor_eq_floor]
  lift b to ℕ using hb.le with n hn
  rw [show ((n : ℤ) : ℚ) = ((n : ℕ) : ℚ) by push_cast; rfl]
  rw [Rat.floor_intCast_div_natCast]
  rw [Int.fdiv_eq_ediv _ (Int.natCast_nonneg n)]

/-- C8: the context percentage is
`min(current * 100 // threshold, 100)` with `threshold = size * 775 // 1000`
under integer floor division, and `0` when the threshold is not positive;
in particular a 200000-token window with 100000 tokens used gives threshold
155000 and percentage 64. -/
theorem C8_context_percentage :
    (∀ size current : ℤ,
        context_percentage (size : ℚ) (current : ℚ) =
          ((if 0 < (size * 775).fdiv 1000 then
              min ((current * 100).fdiv ((size * 775).fdiv 1000)) 100
            else 0 : ℤ) : ℚ))
    ∧ context_percentage 200000 100000 = 64 := by
  have hmain : ∀ size current : ℤ,
      context_percentage (size : ℚ) (current : ℚ) =
        ((if 0 < (size * 775).fdiv 1000 then
            min ((current * 100).fdiv ((size * 775).fdiv 1000)) 100
          else 0 : ℤ) : ℚ) := by
    intro size current
    simp only [context_percentage]
    have h1 : ratFloor ((size : ℚ) * 775 / 1000) = (size * 775).fdiv 1000 := by
      have e1 : ((size : ℚ) * 775) = ((size * 775 : ℤ) : ℚ) := by push_cast; ring
      have e2 : ((1000 : ℚ)) = ((1000 : ℤ) : ℚ) := by norm_num
      rw [e1, e2, ratFloor_intCast_div _ _ (by norm_num)]
    rw [h1]
    by_cases hpos : 0 < (size * 775).fdiv 1000
    · rw [if_pos (show (((size * 775).fdiv 1000 : ℤ) : ℚ) > 0 from by exact_mod_cast hpos),
        if_pos hpos]
      have h2 : ratFloor ((current : ℚ) * 100 / (((size * 775).fdiv 1000 : ℤ) : ℚ)) =
          (current * 100).fdiv ((size * 775).fdiv 1000) := by
        have e1 : ((current : ℚ) * 100) = ((current * 100 : ℤ) : ℚ) := by push_cast; ring
        rw [e1, ratFloor_intCast_div _ _ hpos]
      rw [h2]
      push_cast
      rfl
    · rw [if_neg (show ¬((((size * 775).fdiv 1000 : ℤ) : ℚ) > 0) from by
          exact_mod_cast hpos), if_neg hpos]
      norm_num
  refine ⟨hmain, ?_⟩
  have h := hmain 200000 100000
  rw [show ((200000 : ℤ) : ℚ) = (200000 : ℚ) by norm_num,
    show ((100000 : ℤ) : ℚ) = (100000 : ℚ) by norm_num] at h
  rw [h]
  rw [show (if 0 < ((200000 : ℤ) * 775).fdiv 1000 then
        min (((100000 : ℤ) * 100).fdiv (((200000 : ℤ) * 775).fdiv 1000)) 100
      else 0) = (64 : ℤ) from by decide]
  norm_num

/-- C9: the countdown is absent once the reset instant has passed (or is not
in the strict future); otherwise the whole minutes remaining
`tm = floor(delta / 60)` are rendered as `"{hours}h{minutes:02d}m"` when at
least 60 minutes remain and as `"{minutes}m"` otherwise. -/
theorem C9_reset_countdown :
    ∀ (parseIso : String → Option ℚ) (now t : ℚ) (s : String),
      s ≠ "" →
      parseIso (s.replace "Z" "+00:00") = some t →
      ((t - now ≤ 0 → format_time_until_reset parseIso now (.str s) = .ok none) ∧
       (0 < t - now →
          format_time_until_reset parseIso now (.str s) =
            .ok (some
              (if 60 ≤ ratFloor ((t - now) / 60) then
                 toString ((ratFloor ((t - now) / 60)).fdiv 60) ++ "h" ++
                   pyFmt02 ((ratFloor ((t - now) / 60)).fmod 60) ++ "m"
               else toString (ratFloor ((t - now) / 60)) ++ "m"))) ∧
       ratFloor ((t - now) / 60) = ⌊(t - now) / 60⌋) := by
  intro parseIso now t s hs hp
  have hb : (s != "") = true := by simpa using hs
  have hred : ∀ res : Except PyExc (Option String),
      (format_time_until_reset parseIso now (.str s) = res) ↔
        ((if t - now ≤ 0 then (.ok none : Except PyExc (Option String))
          else
            if (ratFloor ((t - now) / 60)).fdiv 60 > 0 then
              .ok (some (toString ((ratFloor ((t - now) / 60)).fdiv 60) ++ "h" ++
                pyFmt02 ((ratFloor ((t - now) / 60)).fmod 60) ++ "m"))
            else .ok (some (toString ((ratFloor ((t - now) / 60)).fmod 60) ++ "m"))) = res) := by
    intro res
    simp only [format_time_until_reset, JVal.truthy, hb, Bool.not_true, Bool.false_eq_true,
      if_false, hp]
  refine ⟨?_, ?_, (ratFloor_eq_floor _).symm ▸ rfl⟩
  · intro hle
    rw [hred]
    rw [if_pos hle]
  · intro hpos
    have htm : 0 ≤ ratFloor ((t - now) / 60) := by
      rw [ratFloor_eq_floor]
      exact Int.floor_nonneg.mpr (by positivity)
    have hiff : ((ratFloor ((t - now) / 60)).fdiv 60 > 0) ↔
        (60 ≤ ratFloor ((t - now) / 60)) := by
      rw [Int.fdiv_eq_ediv _ (by norm_num : (0 : ℤ) ≤ 60)]
      rw [gt_iff_lt, Int.lt_iff_add_one_le, zero_add,
        Int.le_ediv_iff_mul_le (by norm_num : (0 : ℤ) < 60), one_mul]
    rw [hred, if_neg (not_le.mpr hpos)]
    by_cases h60 : 60 ≤ ratFloor ((t - now) / 60)
    · rw [if_pos (hiff.mpr h60), if_pos h60]
    · rw [if_neg (fun hc => h60 (hiff.mp hc)), if_neg h60]
      have hmod : (ratFloor ((t - now) / 60)).fmod 60 = ratFloor ((t - now) / 60) := by
        rw [Int.fmod_eq_emod _ (by norm_num : (0 : ℤ) ≤ 60)]
        exact Int.emod_eq_of_lt htm (by omega)
      rw [hmod]

unseal Rat.sub Rat.mul Rat.add Rat.inv in
theorem C9_reset_countdown_witness :
    format_time_until_reset (fun _ => some 7500) 0 (.str "x") = .ok (some "2h05m") ∧
    format_time_until_reset (fun _ => some 0) 60 (.str "y") = .ok none := by
  constructor
  · have h := (C9_reset_countdown (fun _ => some 7500) 0 7500 "x" (by decide) rfl).2.1
      (by decide)
    rw [h]
    rfl
  · exact (C9_reset_countdown (fun _ => some 0) 60 0 "y" (by decide) rfl).1 (by decide)

/-! ## Usage Resolver branch lemmas -/

theorem gud_dual_hit (env : Env) (fs : FS) (s w : JVal)
    (hs : get_cached_usage env.now fs.session SESSION_TTL = some s)
    (hw : get_cached_usage env.now fs.weekly WEEKLY_TTL = some w) :
    get_usage_data env fs = .ok ⟨some s, some w, fs, 0, 0⟩ := by
  simp [get_usage_data, hs, hw]

theorem gud_no_token (env : Env) (fs : FS)
    (hmiss : get_cached_usage env.now fs.session SESSION_TTL = none ∨
      get_cached_usage env.now fs.weekly WEEKLY_TTL = none)
    (htok : tokenFalsy env.token = true) :
    get_usage_data env fs = .ok ⟨none, none, fs, 1, 0⟩ := by
  rcases hmiss with hm | hm <;> simp [get_usage_data, hm, htok]

theorem gud_fetch_absent (env : Env) (fs : FS)
    (hmiss : get_cached_usage env.now fs.session SESSION_TTL = none ∨
      get_cached_usage env.now fs.weekly WEEKLY_TTL = none)
    (htok : tokenFalsy env.token = false)
    (hf : env.fetched = none) :
    get_usage_data env fs = .ok ⟨none, none, fs, 1, 1⟩ := by
  rcases hmiss with hm | hm <;> simp [get_usage_data, hm, htok, hf]

theorem gud_session_provenance {env : Env} {fs : FS} {r : ResolveOut}
    (h : get_usage_data env fs = .ok r) :
    ∀ s, r.session_data = some s →
      (get_cached_usage env.now fs.session SESSION_TTL = some s ∧
        r.fs.session = fs.session) ∨
      (∃ usage five, env.fetched = some usage ∧
        pyGetD usage "five_hour" (.obj []) = .ok five ∧ five.truthy = true ∧
        processSubrecord five = .ok s ∧ r.fs.session = some ⟨env.now, some s⟩) := by
  intro s hs
  simp only [get_usage_data] at h
  split at h
  · simp only [Except.ok.injEq] at h
    subst h
    left
    exact ⟨hs, rfl⟩
  · split at h
    · simp only [Except.ok.injEq] at h
      subst h
      exact absurd hs (by simp)
    · split at h
      · simp only [Except.ok.injEq] at h
        subst h
        exact absurd hs (by simp)
      · rename_i usage hfetch
        split at h
        · simp only [Except.ok.injEq] at h
          subst h
          exact absurd hs (by simp)
        · rename_i hU
          split at h
          · exact absurd h (by simp)
          · rename_i five hfive
            split at h
            · exact absurd h (by simp)
            · rename_i sd fs1 heq
              have hsd : (sd = get_cached_usage env.now fs.session SESSION_TTL ∧ fs1 = fs) ∨
                  (five.truthy = true ∧ ∃ d, processSubrecord five = .ok d ∧ sd = some d ∧
                    fs1.session = some ⟨env.now, some d⟩) := by
                split at heq
                · rename_i h5
                  split at heq
                  · exact absurd heq (by simp)
                  · rename_i d5 hd5
                    simp only [Except.ok.injEq, Prod.mk.injEq] at heq
                    right
                    refine ⟨h5, d5, hd5, heq.1.symm, ?_⟩
                    rw [← heq.2]
                    rfl
                · rename_i h5
                  simp only [Except.ok.injEq, Prod.mk.injEq] at heq
                  left
                  exact ⟨heq.1.symm, heq.2.symm⟩
              split at h
              · exact absurd h (by simp)
              · rename_i seven hseven
                split at h
                · split at h
                  · exact absurd h (by simp)
                  · rename_i d hd
                    simp only [Except.ok.injEq] at h
                    subst h
                    simp only at hs
                    rcases hsd with ⟨h1, h2⟩ | ⟨h5, d5, hd5, hsd5, hfs5⟩
                    · rw [h1] at hs
                      subst h2
                      left
                      exact ⟨hs, rfl⟩
                    · rw [hsd5] at hs
                      cases hs
                      right
                      exact ⟨usage, five, hfetch, hfive, h5, hd5, hfs5⟩
                · simp only [Except.ok.injEq] at h
                  subst h
                  simp only at hs
                  rcases hsd with ⟨h1, h2⟩ | ⟨h5, d5, hd5, hsd5, hfs5⟩
                  · rw [h1] at hs
                    subst h2
                    left
                    exact ⟨hs, rfl⟩
                  · rw [hsd5] at hs
                    cases hs
                    right
                    exact ⟨usage, five, hfetch, hfive, h5, hd5, hfs5⟩

theorem gud_weekly_provenance {env : Env} {fs : FS} {r : ResolveOut}
    (h : get_usage_data env fs = .ok r) :
    ∀ w, r.weekly_data = some w →
      (get_cached_usage env.now fs.weekly WEEKLY_TTL = some w ∧
        r.fs.weekly = fs.weekly) ∨
      (∃ usage seven, env.fetched = some usage ∧
        pyGetD usage "seven_day" (.obj []) = .ok seven ∧ seven.truthy = true ∧
        processSubrecord seven = .ok w ∧ r.fs.weekly = some ⟨env.now, some w⟩) := by
  intro w hw
  simp only [get_usage_data] at h
  split at h
  · simp only [Except.ok.injEq] at h
    subst h
    left
    exact ⟨hw, rfl⟩
  · split at h
    · simp only [Except.ok.injEq] at h
      subst h
      exact absurd hw (by simp)
    · split at h
      · simp only [Except.ok.injEq] at h
        subst h
        exact absurd hw (by simp)
      · rename_i usage hfetch
        split at h
        · simp only [Except.ok.injEq] at h
          subst h
          exact absurd hw (by simp)
        · rename_i hU
          split at h
          · exact absurd h (by simp)
          · rename_i five hfive
            split at h
            · exact absurd h (by simp)
            · rename_i sd fs1 heq
              have hfs1w : fs1.weekly = fs.weekly := by
                split at heq
                · split at heq
                  · exact absurd heq (by simp)
                  · simp only [Except.ok.injEq, Prod.mk.injEq] at heq
                    rw [← heq.2]
                · simp only [Except.ok.injEq, Prod.mk.injEq] at heq
                  rw [← heq.2]
              split at h
              · exact absurd h (by simp)
              · rename_i seven hseven
                split at h
                · rename_i h7
                  split at h
                  · exact absurd h (by simp)
                  · rename_i d hd
                    simp only [Except.ok.injEq] at h
                    subst h
                    simp only at hw
                    cases hw
                    right
                    exact ⟨usage, seven, hfetch, hseven, h7, hd, rfl⟩
                · simp only [Except.ok.injEq] at h
                  subst h
                  simp only at hw
                  left
                  rw [hfs1w]
                  exact ⟨hw, rfl⟩

theorem gud_calls {env : Env} {fs : FS} {r : ResolveOut}
    (h : get_usage_data env fs = .ok r) :
    r.tokenCalls ≤ 1 ∧ r.fetchCalls ≤ 1 := by
  simp only [get_usage_data] at h
  repeat' split at h
  all_goals first
    | exact Except.noConfusion h
    | (simp only [Except.ok.injEq] at h; subst h; exact ⟨by norm_num, by norm_num⟩)

theorem gud_fetch_five_only (t : ℚ) (tok : String) (fs : FS)
    (kvs : List (String × JVal)) (sub d : JVal)
    (hs0 : get_cached_usage t fs.session SESSION_TTL = none)
    (hw0 : get_cached_usage t fs.weekly WEEKLY_TTL = none)
    (htok : (tok == "") = false)
    (h5 : kvs.lookup "five_hour" = some sub)
    (h5T : sub.truthy = true)
    (hps : processSubrecord sub = .ok d)
    (h7 : kvs.lookup "seven_day" = none) :
    get_usage_data ⟨t, some tok, some (.obj kvs)⟩ fs =
      .ok ⟨some d, none, ⟨some ⟨t, some d⟩, fs.weekly⟩, 1, 1⟩ := by
  have hu : (JVal.obj kvs).truthy = true := by
    cases kvs with
    | nil => simp at h5
    | cons a l => rfl
  have h70 : (JVal.obj ([] : List (String × JVal))).truthy = false := rfl
  simp [get_usage_data, hs0, hw0, tokenFalsy, htok, hu, pyGetD, lookupD,
    h5, h7, h5T, h70, hps, save_cache]

theorem gud_fetch_no_five (t : ℚ) (tok : String) (fs : FS)
    (kvs : List (String × JVal))
    (hs0 : get_cached_usage t fs.session SESSION_TTL = none)
    (htok : (tok == "") = false)
    (hne : kvs ≠ [])
    (h5F : (lookupD kvs "five_hour" (.obj [])).truthy = false)
    (h7F : (lookupD kvs "seven_day" (.obj [])).truthy = false) :
    get_usage_data ⟨t, some tok, some (.obj kvs)⟩ fs =
      .ok ⟨none, get_cached_usage t fs.weekly WEEKLY_TTL, fs, 1, 1⟩ := by
  have hu : (JVal.obj kvs).truthy = true := by
    cases kvs with
    | nil => exact absurd rfl hne
    | cons a l => rfl
  simp [get_usage_data, hs0, tokenFalsy, htok, hu, pyGetD, h5F, h7F]

/-- C1: when both cache reads return valid entries the resolver returns
exactly those two readings with zero Credential Provider and zero Usage
Fetcher invocations and an unchanged filesystem; consequently a second
invocation inside the validity window of the cache entries left by a first
invocation that produced both readings returns the identical readings, and
the Usage Fetcher runs at most once across the two invocations. -/
theorem C1_dual_cache_hit_idempotent :
    (∀ (env : Env) (fs : FS) (s w : JVal),
        get_cached_usage env.now fs.session SESSION_TTL = some s →
        get_cached_usage env.now fs.weekly WEEKLY_TTL = some w →
        get_usage_data env fs = .ok ⟨some s, some w, fs, 0, 0⟩)
    ∧ (∀ (t1 t2 : ℚ) (tok : Option String) (ftc : Option JVal) (fs0 : FS)
        (r1 : ResolveOut) (s w : JVal),
        get_usage_data ⟨t1, tok, ftc⟩ fs0 = .ok r1 →
        r1.session_data = some s → r1.weekly_data = some w →
        (∀ cf, r1.fs.session = some cf → t2 - cf.mtime ≤ SESSION_TTL) →
        (∀ cf, r1.fs.weekly = some cf → t2 - cf.mtime ≤ WEEKLY_TTL) →
        get_usage_data ⟨t2, tok, ftc⟩ r1.fs = .ok ⟨some s, some w, r1.fs, 0, 0⟩ ∧
          r1.fetchCalls + 0 ≤ 1) := by
  constructor
  · exact fun env fs s w hs hw => gud_dual_hit env fs s w hs hw
  · intro t1 t2 tok ftc fs0 r1 s w h hs hw hfr1 hfr2
    have hcs : ∃ cf, r1.fs.session = some cf ∧ cf.content = some s := by
      rcases gud_session_provenance h s hs with ⟨hcache, hfseq⟩ | ⟨u, five, _, _, _, _, hsave⟩
      · rcases (get_cached_usage_eq_some_iff _ _ _ _).mp hcache with ⟨cf, hcf, hcon, _⟩
        exact ⟨cf, by rw [hfseq, hcf], hcon⟩
      · exact ⟨⟨t1, some s⟩, hsave, rfl⟩
    have hcw : ∃ cf, r1.fs.weekly = some cf ∧ cf.content = some w := by
      rcases gud_weekly_provenance h w hw with ⟨hcache, hfweq⟩ | ⟨u, seven, _, _, _, _, hsave⟩
      · rcases (get_cached_usage_eq_some_iff _ _ _ _).mp hcache with ⟨cf, hcf, hcon, _⟩
        exact ⟨cf, by rw [hfweq, hcf], hcon⟩
      · exact ⟨⟨t1, some w⟩, hsave, rfl⟩
    rcases hcs with ⟨cfs, hcfs, hcons⟩
    rcases hcw with ⟨cfw, hcfw, hconw⟩
    have hv1 : get_cached_usage t2 r1.fs.session SESSION_TTL = some s := by
      rw [hcfs]
      exact get_cached_usage_of_fresh _ _ _ _ hcons (hfr1 cfs hcfs)
    have hv2 : get_cached_usage t2 r1.fs.weekly WEEKLY_TTL = some w := by
      rw [hcfw]
      exact get_cached_usage_of_fresh _ _ _ _ hconw (hfr2 cfw hcfw)
    refine ⟨gud_dual_hit ⟨t2, tok, ftc⟩ r1.fs s w hv1 hv2, ?_⟩
    have := (gud_calls h).2
    omega

unseal Rat.sub Rat.mul Rat.add Rat.inv in
theorem C1_dual_cache_hit_idempotent_witness :
    get_usage_data
        ⟨50, some "t",
          some (.obj [("five_hour", .obj [("utilization", .num 42), ("resets_at", .null)]),
            ("seven_day", .obj [("utilization", .num 7)])])⟩
        ⟨some ⟨0, some (.obj [("pct", .num 42), ("resets_at", .null)])⟩,
          some ⟨0, some (.obj [("pct", .num 7), ("resets_at", .null)])⟩⟩ =
      .ok ⟨some (.obj [("pct", .num 42), ("resets_at", .null)]),
        some (.obj [("pct", .num 7), ("resets_at", .null)]),
        ⟨some ⟨0, some (.obj [("pct", .num 42), ("resets_at", .null)])⟩,
          some ⟨0, some (.obj [("pct", .num 7), ("resets_at", .null)])⟩⟩, 0, 0⟩ ∧
      (1 : ℕ) + 0 ≤ 1 :=
  C1_dual_cache_hit_idempotent.2 0 50 (some "t")
    (some (.obj [("five_hour", .obj [("utilization", .num 42), ("resets_at", .null)]),
      ("seven_day", .obj [("utilization", .num 7)])]))
    ⟨none, none⟩
    ⟨some (.obj [("pct", .num 42), ("resets_at", .null)]),
      some (.obj [("pct", .num 7), ("resets_at", .null)]),
      ⟨some ⟨0, some (.obj [("pct", .num 42), ("resets_at", .null)])⟩,
        some ⟨0, some (.obj [("pct", .num 7), ("resets_at", .null)])⟩⟩, 1, 1⟩
    (.obj [("pct", .num 42), ("resets_at", .null)])
    (.obj [("pct", .num 7), ("resets_at", .null)])
    rfl rfl rfl
    (fun cf hcf => by injection hcf with h2; subst h2; decide)
    (fun cf hcf => by injection hcf with h2; subst h2; decide)

/-- C4: on any cache miss, if the token is absent (or falsy) or the fetch
returns absent, the resolver yields both readings absent — discarding even a
still-valid cached reading for the other key — leaves the filesystem
unchanged, and invokes the Usage Fetcher at most once. -/
theorem C4_failure_degrades_both_absent :
    ∀ (env : Env) (fs : FS),
      (get_cached_usage env.now fs.session SESSION_TTL = none ∨
        get_cached_usage env.now fs.weekly WEEKLY_TTL = none) →
      (tokenFalsy env.token = true ∨ env.fetched = none) →
      ∃ r, get_usage_data env fs = .ok r ∧ r.session_data = none ∧
        r.weekly_data = none ∧ r.fs = fs ∧ r.fetchCalls ≤ 1 := by
  intro env fs hmiss hfail
  by_cases htok : tokenFalsy env.token = true
  · exact ⟨_, gud_no_token env fs hmiss htok, rfl, rfl, rfl, by norm_num⟩
  · rcases hfail with hf | hf
    · exact absurd hf htok
    · exact ⟨_, gud_fetch_absent env fs hmiss (by simpa using htok) hf, rfl, rfl, rfl,
        by norm_num⟩

unseal Rat.sub Rat.mul Rat.add Rat.inv in
theorem C4_failure_degrades_both_absent_witness :
    ∃ r, get_usage_data ⟨0, none, none⟩
        ⟨some ⟨0, some (.obj [("pct", .num 5), ("resets_at", .null)])⟩, none⟩ = .ok r ∧
      r.session_data = none ∧ r.weekly_data = none ∧
      r.fs = ⟨some ⟨0, some (.obj [("pct", .num 5), ("resets_at", .null)])⟩, none⟩ ∧
      r.fetchCalls ≤ 1 :=
  C4_failure_degrades_both_absent ⟨0, none, none⟩
    ⟨some ⟨0, some (.obj [("pct", .num 5), ("resets_at", .null)])⟩, none⟩
    (Or.inr rfl) (Or.inl rfl)

/-- C5: with both cache keys missing or stale, a successful fetch whose
response has a truthy `five_hour` sub-record and no `seven_day` key yields a
present session reading (the processed sub-record, also written to the
session cache) and an absent weekly reading, and leaves the weekly cache
file unchanged. -/
theorem C5_partial_response_independent_keys :
    ∀ (t : ℚ) (tok : String) (fs : FS) (kvs : List (String × JVal)) (sub d : JVal),
      get_cached_usage t fs.session SESSION_TTL = none →
      get_cached_usage t fs.weekly WEEKLY_TTL = none →
      (tok == "") = false →
      kvs.lookup "five_hour" = some sub →
      sub.truthy = true →
      processSubrecord sub = .ok d →
      kvs.lookup "seven_day" = none →
      get_usage_data ⟨t, some tok, some (.obj kvs)⟩ fs =
        .ok ⟨some d, none, ⟨some ⟨t, some d⟩, fs.weekly⟩, 1, 1⟩ :=
  fun t tok fs kvs sub d hs0 hw0 htok h5 h5T hps h7 =>
    gud_fetch_five_only t tok fs kvs sub d hs0 hw0 htok h5 h5T hps h7

unseal Rat.sub Rat.mul Rat.add Rat.inv in
theorem C5_partial_response_independent_keys_witness :
    get_usage_data
        ⟨0, some "t", some (.obj [("five_hour",
          .obj [("utilization", .num 42), ("resets_at", .str "R")])])⟩
        ⟨none, some ⟨-1000, some (.obj [("pct", .num 9), ("resets_at", .null)])⟩⟩ =
      .ok ⟨some (.obj [("pct", .num 42), ("resets_at", .str "R")]), none,
        ⟨some ⟨0, some (.obj [("pct", .num 42), ("resets_at", .str "R")])⟩,
          some ⟨-1000, some (.obj [("pct", .num 9), ("resets_at", .null)])⟩⟩, 1, 1⟩ :=
  C5_partial_response_independent_keys 0 "t"
    ⟨none, some ⟨-1000, some (.obj [("pct", .num 9), ("resets_at", .null)])⟩⟩
    [("five_hour", .obj [("utilization", .num 42), ("resets_at", .str "R")])]
    (.obj [("utilization", .num 42), ("resets_at", .str "R")])
    (.obj [("pct", .num 42), ("resets_at", .str "R")])
    rfl (by simp only [get_cached_usage]; rw [if_pos (by decide)]) rfl rfl rfl rfl rfl

/-- C7: for a present sub-record the computed percentage is
`int(float(utilization))` — floor for the nonnegative values the API sends,
truncation toward zero in general, never rounding — and `resets_at` is
carried verbatim into both the returned reading and the cached payload. -/
theorem C7_truncation_and_resets_verbatim :
    ∀ (skvs : List (String × JVal)) (u : ℚ) (rv : JVal),
      skvs.lookup "utilization" = some (.num u) →
      skvs.lookup "resets_at" = some rv →
      (processSubrecord (.obj skvs) =
        .ok (.obj [("pct", .num ((pyTrunc u : ℤ) : ℚ)), ("resets_at", rv)])) ∧
      (0 ≤ u → pyTrunc u = ⌊u⌋) ∧ (u ≤ 0 → pyTrunc u = ⌈u⌉) ∧
      (∀ (t : ℚ) (tok : String) (fs : FS) (kvs : List (String × JVal)),
        get_cached_usage t fs.session SESSION_TTL = none →
        get_cached_usage t fs.weekly WEEKLY_TTL = none →
        (tok == "") = false →
        kvs.lookup "five_hour" = some (.obj skvs) →
        kvs.lookup "seven_day" = none →
        skvs ≠ [] →
        get_usage_data ⟨t, some tok, some (.obj kvs)⟩ fs =
          .ok ⟨some (.obj [("pct", .num ((pyTrunc u : ℤ) : ℚ)), ("resets_at", rv)]),
            none,
            ⟨some ⟨t, some (.obj [("pct", .num ((pyTrunc u : ℤ) : ℚ)), ("resets_at", rv)])⟩,
              fs.weekly⟩, 1, 1⟩) := by
  intro skvs u rv h1 h2
  have hps : processSubrecord (.obj skvs) =
      .ok (.obj [("pct", .num ((pyTrunc u : ℤ) : ℚ)), ("resets_at", rv)]) := by
    simp [processSubrecord, pyGetD, lookupD, h1, h2, pyFloat]
  refine ⟨hps, pyTrunc_eq_floor_of_nonneg u, pyTrunc_eq_ceil_of_nonpos u, ?_⟩
  intro t tok fs kvs hs0 hw0 htok h5 h7 hne
  have hT : (JVal.obj skvs).truthy = true := by
    cases skvs with
    | nil => exact absurd rfl hne
    | cons a l => rfl
  exact gud_fetch_five_only t tok fs kvs (.obj skvs) _ hs0 hw0 htok h5 hT hps h7

unseal Rat.sub Rat.mul Rat.add Rat.inv in
theorem C7_truncation_and_resets_verbatim_witness :
    (processSubrecord (.obj [("utilization", .num (301 / 2)), ("resets_at", .str "Z")]) =
      .ok (.obj [("pct", .num 150), ("resets_at", .str "Z")])) ∧
    pyTrunc (301 / 2 : ℚ) = ⌊(301 / 2 : ℚ)⌋ := by
  have h := C7_truncation_and_resets_verbatim
    [("utilization", .num (301 / 2)), ("resets_at", .str "Z")] (301 / 2) (.str "Z") rfl rfl
  constructor
  · rw [h.1]
    rfl
  · exact h.2.1 (by decide)

/-- C10: a `five_hour` key bound to an empty object behaves exactly like an
absent `five_hour` key (no reading, no cache write), while a non-empty
sub-record merely lacking `utilization` produces a present reading with
percentage 0 (and `resets_at` null when that key is absent too) which is
returned and written to the session cache. -/
theorem C10_empty_subrecord_vs_missing_field :
    (∀ (t : ℚ) (tok : String) (fs : FS) (kvs1 kvs2 : List (String × JVal)),
      get_cached_usage t fs.session SESSION_TTL = none →
      get_cached_usage t fs.weekly WEEKLY_TTL = none →
      (tok == "") = false →
      kvs1.lookup "five_hour" = some (.obj []) →
      kvs1.lookup "seven_day" = none →
      kvs2.lookup "five_hour" = none →
      kvs2.lookup "seven_day" = none →
      kvs2 ≠ [] →
      (get_usage_data ⟨t, some tok, some (.obj kvs1)⟩ fs =
          get_usage_data ⟨t, some tok, some (.obj kvs2)⟩ fs ∧
        get_usage_data ⟨t, some tok, some (.obj kvs1)⟩ fs = .ok ⟨none, none, fs, 1, 1⟩))
    ∧ (∀ (t : ℚ) (tok : String) (fs : FS) (kvs skvs : List (String × JVal)),
      get_cached_usage t fs.session SESSION_TTL = none →
      get_cached_usage t fs.weekly WEEKLY_TTL = none →
      (tok == "") = false →
      kvs.lookup "five_hour" = some (.obj skvs) →
      kvs.lookup "seven_day" = none →
      skvs ≠ [] →
      skvs.lookup "utilization" = none →
      get_usage_data ⟨t, some tok, some (.obj kvs)⟩ fs =
        .ok ⟨some (.obj [("pct", .num 0), ("resets_at", lookupD skvs "resets_at" .null)]),
          none,
          ⟨some ⟨t, some (.obj [("pct", .num 0),
            ("resets_at", lookupD skvs "resets_at" .null)])⟩, fs.weekly⟩, 1, 1⟩) := by
  constructor
  · intro t tok fs kvs1 kvs2 hs0 hw0 htok h51 h71 h52 h72 hne2
    have hne1 : kvs1 ≠ [] := by
      intro hk
      rw [hk] at h51
      simp at h51
    have e1 : get_usage_data ⟨t, some tok, some (.obj kvs1)⟩ fs =
        .ok ⟨none, get_cached_usage t fs.weekly WEEKLY_TTL, fs, 1, 1⟩ := by
      refine gud_fetch_no_five t tok fs kvs1 hs0 htok hne1 ?_ ?_
      · rw [lookupD, h51]
        rfl
      · rw [lookupD, h71]
        rfl
    have e2 : get_usage_data ⟨t, some tok, some (.obj kvs2)⟩ fs =
        .ok ⟨none, get_cached_usage t fs.weekly WEEKLY_TTL, fs, 1, 1⟩ := by
      refine gud_fetch_no_five t tok fs kvs2 hs0 htok hne2 ?_ ?_
      · rw [lookupD, h52]
        rfl
      · rw [lookupD, h72]
        rfl
    rw [e1, e2, hw0]
    exact ⟨rfl, rfl⟩
  · intro t tok fs kvs skvs hs0 hw0 htok h5 h7 hne hu
    have hT : (JVal.obj skvs).truthy = true := by
      cases skvs with
      | nil => exact absurd rfl hne
      | cons a l => rfl
    have hps : processSubrecord (.obj skvs) =
        .ok (.obj [("pct", .num 0), ("resets_at", lookupD skvs "resets_at" .null)]) := by
      simp only [processSubrecord, pyGetD, lookupD, hu, Option.getD_none, pyFloat]
      have h0 : ((pyTrunc 0 : ℤ) : ℚ) = 0 := by
        norm_num [pyTrunc]
      rw [h0]
    exact gud_fetch_five_only t tok fs kvs (.obj skvs) _ hs0 hw0 htok h5 hT hps h7

unseal Rat.sub Rat.mul Rat.add Rat.inv in
theorem C10_empty_subrecord_vs_missing_field_witness :
    (get_usage_data ⟨0, some "t", some (.obj [("five_hour", .obj []), ("x", .num 1)])⟩
        ⟨none, none⟩ =
      get_usage_data ⟨0, some "t", some (.obj [("x", .num 1)])⟩ ⟨none, none⟩ ∧
      get_usage_data ⟨0, some "t", some (.obj [("five_hour", .obj []), ("x", .num 1)])⟩
        ⟨none, none⟩ = .ok ⟨none, none, ⟨none, none⟩, 1, 1⟩) ∧
    get_usage_data ⟨0, some "t",
        some (.obj [("five_hour", .obj [("resets_at", .str "R")])])⟩ ⟨none, none⟩ =
      .ok ⟨some (.obj [("pct", .num 0), ("resets_at", .str "R")]), none,
        ⟨some ⟨0, some (.obj [("pct", .num 0), ("resets_at", .str "R")])⟩, none⟩, 1, 1⟩ := by
  constructor
  · exact C10_empty_subrecord_vs_missing_field.1 0 "t" ⟨none, none⟩
      [("five_hour", .obj []), ("x", .num 1)] [("x", .num 1)]
      rfl rfl rfl rfl rfl rfl rfl (List.cons_ne_nil _ _)
  · exact C10_empty_subrecord_vs_missing_field.2 0 "t" ⟨none, none⟩
      [("five_hour", .obj [("resets_at", .str "R")])] [("resets_at", .str "R")]
      rfl rfl rfl rfl rfl (List.cons_ne_nil _ _) rfl

/-! ## C2: percentage range -/

/-- Property that the `pct` field of a reading dict lies in `[0, 100]`. -/
def ReadingInRange (d : JVal) : Prop :=
  ∀ kvs q, d = .obj kvs → kvs.lookup "pct" = some (.num q) → 0 ≤ q ∧ q ≤ 100

/-- Property that a cache file, when present and parseable, stores a reading
whose `pct` lies in `[0, 100]`. -/
def fileInRange (f : Option CacheFile) : Prop :=
  ∀ cf d, f = some cf → cf.content = some d → ReadingInRange d

/-- Property that every `utilization` value inside a fetched usage response
coerces to a rational in `[0, 100]`. -/
def utilizationsInRange (usage : JVal) : Prop :=
  ∀ kvs key sub skvs v q, usage = .obj kvs → kvs.lookup key = some sub →
    sub = .obj skvs → skvs.lookup "utilization" = some v → pyFloat v = .ok q →
    0 ≤ q ∧ q ≤ 100

theorem fetched_reading_range {usage sub d : JVal} (key : String)
    (hutil : utilizationsInRange usage)
    (hget : pyGetD usage key (.obj []) = .ok sub)
    (hT : sub.truthy = true)
    (hps : processSubrecord sub = .ok d) :
    ReadingInRange d := by
  cases usage with
  | obj kvs =>
    simp only [pyGetD, Except.ok.injEq] at hget
    have hlk : kvs.lookup key = some sub := by
      unfold lookupD at hget
      cases hl : kvs.lookup key with
      | none =>
        rw [hl] at hget
        simp only [Option.getD_none] at hget
        rw [← hget] at hT
        exact absurd hT (by decide)
      | some v =>
        rw [hl] at hget
        simp only [Option.getD_some] at hget
        rw [hget]
    cases sub with
    | obj skvs =>
      simp only [processSubrecord, pyGetD] at hps
      split at hps
      · exact absurd hps (by simp)
      · rename_i q heqf
        simp only [Except.ok.injEq] at hps
        have hq : 0 ≤ q ∧ q ≤ 100 := by
          cases hu : skvs.lookup "utilization" with
          | some v =>
            refine hutil kvs key (.obj skvs) skvs v q rfl hlk rfl hu ?_
            rw [lookupD, hu] at heqf
            exact heqf
          | none =>
            rw [lookupD, hu] at heqf
            simp only [Option.getD_none, pyFloat, Except.ok.injEq] at heqf
            rw [← heqf]
            norm_num
        intro kvs' q' hd hlook
        rw [← hps] at hd
        cases hd
        simp only [List.lookup, show (("pct" == "pct") = true) from rfl,
          Option.some.injEq] at hlook
        have hq' : q' = ((pyTrunc q : ℤ) : ℚ) := by
          cases hlook
          rfl
        rw [hq']
        exact pyTrunc_mem_Icc q hq.1 hq.2
    | null => simp [processSubrecord, pyGetD] at hps
    | bool b => simp [processSubrecord, pyGetD] at hps
    | num n => simp [processSubrecord, pyGetD] at hps
    | str s => simp [processSubrecord, pyGetD] at hps
    | arr xs => simp [processSubrecord, pyGetD] at hps
  | null => simp [pyGetD] at hget
  | bool b => simp [pyGetD] at hget
  | num n => simp [pyGetD] at hget
  | str s => simp [pyGetD] at hget
  | arr xs => simp [pyGetD] at hget

/-- C2 counterexample: with both caches empty, a fetched `five_hour`
utilization of 150 produces a resolver reading whose `pct` is 150, outside
`[0, 100]` — the code never clamps. -/
theorem C2_percentage_counterexample :
    get_usage_data
        ⟨0, some "t",
          some (.obj [("five_hour", .obj [("utilization", .num 150), ("resets_at", .null)])])⟩
        ⟨none, none⟩ =
      .ok ⟨some (.obj [("pct", .num 150), ("resets_at", .null)]), none,
        ⟨some ⟨0, some (.obj [("pct", .num 150), ("resets_at", .null)])⟩, none⟩, 1, 1⟩ ∧
    ¬((150 : ℚ) ≤ 100) :=
  ⟨rfl, by norm_num⟩

/-- C2 amended: every reading the resolver returns has its `pct` in `[0, 100]`
provided every fetched `utilization` value lies in `[0, 100]` and every
parseable cache file stores a `pct` in `[0, 100]`; the resolver itself never
clamps (see the counterexample). -/
theorem C2_percentage_range_amended :
    ∀ (env : Env) (fs : FS) (r : ResolveOut),
      get_usage_data env fs = .ok r →
      (∀ usage, env.fetched = some usage → utilizationsInRange usage) →
      fileInRange fs.session → fileInRange fs.weekly →
      (∀ d, r.session_data = some d → ReadingInRange d) ∧
      (∀ d, r.weekly_data = some d → ReadingInRange d) := by
  intro env fs r h hutil hfs hfw
  constructor
  · intro d hd
    rcases gud_session_provenance h d hd with ⟨hcache, _⟩ |
      ⟨usage, five, hfetch, hfive, h5T, hps, _⟩
    · rcases (get_cached_usage_eq_some_iff _ _ _ _).mp hcache with ⟨cf, hcf, hcon, _⟩
      exact hfs cf d hcf hcon
    · exact fetched_reading_range "five_hour" (hutil usage hfetch) hfive h5T hps
  · intro d hd
    rcases gud_weekly_provenance h d hd with ⟨hcache, _⟩ |
      ⟨usage, seven, hfetch, hseven, h7T, hps, _⟩
    · rcases (get_cached_usage_eq_some_iff _ _ _ _).mp hcache with ⟨cf, hcf, hcon, _⟩
      exact hfw cf d hcf hcon
    · exact fetched_reading_range "seven_day" (hutil usage hfetch) hseven h7T hps

unseal Rat.sub Rat.mul Rat.add Rat.inv in
theorem C2_percentage_range_amended_witness :
    ReadingInRange (.obj [("pct", .num 50), ("resets_at", .null)]) ∧
    ReadingInRange (.obj [("pct", .num 7), ("resets_at", .null)]) := by
  have hfs : fileInRange (some ⟨0, some (.obj [("pct", .num 50), ("resets_at", .null)])⟩) := by
    intro cf d h1 h2
    injection h1 with h1
    subst h1
    have h2' : some (JVal.obj [("pct", .num 50), ("resets_at", .null)]) = some d := h2
    injection h2' with h2'
    subst h2'
    intro kvs q hd hq
    injection hd with hd
    subst hd
    simp only [List.lookup, show (("pct" == "pct") = true) from rfl,
      Option.some.injEq] at hq
    have hq' : q = 50 := by
      cases hq
      rfl
    subst hq'
    exact ⟨by decide, by decide⟩
  have hfw : fileInRange (some ⟨0, some (.obj [("pct", .num 7), ("resets_at", .null)])⟩) := by
    intro cf d h1 h2
    injection h1 with h1
    subst h1
    have h2' : some (JVal.obj [("pct", .num 7), ("resets_at", .null)]) = some d := h2
    injection h2' with h2'
    subst h2'
    intro kvs q hd hq
    injection hd with hd
    subst hd
    simp only [List.lookup, show (("pct" == "pct") = true) from rfl,
      Option.some.injEq] at hq
    have hq' : q = 7 := by
      cases hq
      rfl
    subst hq'
    exact ⟨by decide, by decide⟩
  have h := C2_percentage_range_amended ⟨50, none, none⟩
    ⟨some ⟨0, some (.obj [("pct", .num 50), ("resets_at", .null)])⟩,
      some ⟨0, some (.obj [("pct", .num 7), ("resets_at", .null)])⟩⟩
    ⟨some (.obj [("pct", .num 50), ("resets_at", .null)]),
      some (.obj [("pct", .num 7), ("resets_at", .null)]),
      ⟨some ⟨0, some (.obj [("pct", .num 50), ("resets_at", .null)])⟩,
        some ⟨0, some (.obj [("pct", .num 7), ("resets_at", .null)])⟩⟩, 0, 0⟩
    rfl (fun u hu => nomatch hu) hfs hfw
  exact ⟨h.1 _ rfl, h.2 _ rfl⟩

/-! ## C3: process exit behavior -/

/-- C3 counterexample: stdin that parses to a JSON array (valid JSON, not an
object) makes `main` raise `AttributeError` at `data.get("model", ...)`:
the process prints nothing and exits with status 1, not 0. -/
theorem C3_exit_counterexample :
    runProgram (some (.arr [])) (fun _ => none) ⟨0, none, none⟩ ⟨none, none⟩ =
      ⟨"", 1, ⟨none, none⟩⟩ ∧ (1 : ℕ) ≠ 0 :=
  ⟨rfl, by decide⟩

/-- C3 amended: stdin that fails JSON parsing makes the program emit nothing
and exit 0, and every invocation whose processing raises no exception exits
0; but valid JSON whose top level is not an object (or with mistyped nested
fields) raises an uncaught exception and exits non-zero (see the
counterexample). -/
theorem C3_exit_amended :
    (∀ (parseIso : String → Option ℚ) (env : Env) (fs : FS),
        runProgram none parseIso env fs = ⟨"", 0, fs⟩)
    ∧ (∀ (stdin : Option JVal) (parseIso : String → Option ℚ) (env : Env) (fs : FS)
        (out : String) (fs2 : FS),
        pyMain stdin parseIso env fs = .ok (out, fs2) →
        runProgram stdin parseIso env fs = ⟨out, 0, fs2⟩) := by
  constructor
  · intro parseIso env fs
    rfl
  · intro stdin parseIso env fs out fs2 h
    unfold runProgram
    rw [h]

theorem C3_exit_amended_witness :
    runProgram none (fun _ => none) ⟨0, none, none⟩ ⟨none, none⟩ =
      ⟨"", 0, ⟨none, none⟩⟩ :=
  C3_exit_amended.2 none (fun _ => none) ⟨0, none, none⟩ ⟨none, none⟩ "" ⟨none, none⟩ rfl
